import Mathlib

/-!
# Verification of `aag.py` (ASCII Art Generator)

A shallow embedding of the single-file ASCII art generator `src/aag.py`
together with proofs and refutations of the specification claims.

Conventions of the embedding:

* Python integers become `ℕ` (all quantities here are nonnegative sizes or
  pixel intensities) or `ℤ` where a subtraction appears.
* Python float arithmetic in `resize_image` is modelled with exact rational
  arithmetic (`ℚ`).  At the concrete inputs used in the theorems below the
  IEEE-754 double evaluation of the script agrees with the exact value
  (all intermediate values are far from the integer boundaries where a
  sub-ulp rounding error could change the result of `int(...)`).
* Python `int(x)` truncates toward zero; it is modelled by `pyInt`.
* Code that catches exceptions and returns `None` is modelled with `Option`:
  `none` is the `None` returned after a swallowed exception.
* The file-system and process side effects of `__main__` are modelled by an
  explicit outcome record (`Run.StageOutcomes`) and a result record
  (`Run.RunResult`) computed by `Run.runMain`, which follows the control flow
  of the script line by line (see the doc comments there).
-/

/-! ## The character ramp (`Chars.ASCII_CHARS`, aag.py lines 37–38) -/

/-- `Chars.ASCII_CHARS = ["@", "#", "$", "%", "?", "*", "+", ";", ":", ",", "."]`. -/
def ASCII_CHARS : List Char := ['@', '#', '$', '%', '?', '*', '+', ';', ':', ',', '.']

/-- The bucket index used by `convert_pixel_to_ascii`: `pixel // 25`
(aag.py line 102). -/
def rampIndex (pixel : ℕ) : ℕ := pixel / 25

/-- `AsciiArtConverter.convert_pixel_to_ascii` (aag.py lines 94–107) applied to
the flat row-major pixel sequence returned by `getdata()`.  The loop appends
`ASCII_CHARS[pixel // 25]` for each pixel; an out-of-range index raises
`IndexError`, which the surrounding `try` swallows, returning `None`
(modelled as `none`). -/
def convert_pixel_to_ascii : List ℕ → Option (List Char)
  | [] => some []
  | p :: rest =>
    match ASCII_CHARS.get? (rampIndex p), convert_pixel_to_ascii rest with
    | some c, some s => some (c :: s)
    | _, _ => none

/-! ## The resizer (`AsciiArtConverter.resize_image`, aag.py lines 120–135) -/

/-- Python `int(x)`: truncation toward zero (`Int.tdiv` is T-division, and a
rational's numerator/denominator are in lowest terms, under which truncating
division is invariant). -/
def pyInt (q : ℚ) : ℤ := q.num.tdiv (q.den : ℤ)

/-- The dimensions `(self.target_width, int(target_height))` passed to
`self.image.resize` in `resize_image` (aag.py lines 120–132):

    target_height = self.target_width * int(H) / int(W)      -- true division
    target_height = target_height - (int(target_height * .3))
    return self.image.resize((self.target_width, int(target_height)))

`tw` is `self.target_width`, `W`/`H` the original image width/height.
The second assignment subtracts the already-truncated `int(target_height * .3)`
from the still-untruncated `target_height`; the outer `int(...)` is applied
only at the `resize` call. -/
def resize_image_dims (tw W H : ℕ) : ℕ × ℤ :=
  (tw, pyInt ((tw : ℚ) * (H : ℚ) / (W : ℚ) -
        (pyInt ((tw : ℚ) * (H : ℚ) / (W : ℚ) * (3 / 10 : ℚ)) : ℚ)))

/-- The height formula asserted by the spec claim: the intermediate target
height is truncated to an integer *before* the 30 % reduction is subtracted,
`int(tw*H/W) - int(int(tw*H/W)*0.3)`.  Stated from the spec's words, to be
compared with `resize_image_dims` (which is stated from the source). -/
def resizedHeightClaimFormula (tw W H : ℕ) : ℤ :=
  pyInt ((tw : ℚ) * (H : ℚ) / (W : ℚ)) -
    pyInt ((pyInt ((tw : ℚ) * (H : ℚ) / (W : ℚ)) : ℚ) * (3 / 10 : ℚ))

/-! ## Configured widths -/

/-- The default of the `target_width` parameter of
`AsciiArtConverter.__init__` (aag.py line 42): `target_width: int = 100`. -/
def init_default_target_width : ℕ := 100

/-- The width passed explicitly by `__main__` (aag.py line 164):
`AsciiArtConverter(cfg.image_path, target_width=120)`. -/
def main_target_width : ℕ := 120

/-! ## The layout formatter (the loop in `convert`, aag.py lines 75–81)

    ascii_img = ''
    for i in range(0, len(ascii_str), greyscale_image.width):
        ascii_img += ascii_str[i: i + greyscale_image.width] + "\n"

Each slice of `w` characters — including a shorter final slice — is followed
by a newline.  The recursion below peels one chunk per loop iteration; to make
termination structural in the chunk width, `reflowChunks s w` chunks with
width `w + 1`, and `reflow` dispatches on the width. -/

/-- One loop iteration per chunk of width `w + 1`:
`s[i : i + w + 1] + "\n"` appended for each `i` in `range(0, len(s), w + 1)`. -/
def reflowChunks (s : List Char) (w : ℕ) : List Char :=
  match s with
  | [] => []
  | c :: rest => c :: (rest.take w ++ '\n' :: reflowChunks (rest.drop w) w)
termination_by s.length
decreasing_by simp [List.length_drop]; omega

/-- The full reflow loop at width `w`.  (`range(0, len(s), 0)` would raise
`ValueError`; the claims only concern `w ≥ 1`, and `convert` only calls the
loop with `w` = the resized image's width.) -/
def reflow (s : List Char) (w : ℕ) : List Char :=
  match w with
  | 0 => []
  | w' + 1 => reflowChunks s w'

/-- Removing all newline characters from a character sequence. -/
def stripNewlines (s : List Char) : List Char := s.filter (fun c => c != '\n')

/-! ## Output-directory handling (`create_output_directory`, aag.py 147–156)

    output_folder = '/'.join(cfg.output_path.split('/')[:-1]) if '.' in cfg.output_path else cfg.output_path
    if not os.path.exists(output_folder):
        Path(output_folder).mkdir(parents=True, exist_ok=True)
-/

/-- Python `str.split(sep)` for a one-character separator: `pySplitAux` carries
the (reversed) current field. -/
def pySplitAux (sep : Char) : List Char → List Char → List (List Char)
  | cur, [] => [cur.reverse]
  | cur, c :: rest =>
    if c = sep then cur.reverse :: pySplitAux sep [] rest
    else pySplitAux sep (c :: cur) rest

/-- Python `s.split(sep)`. -/
def pySplit (sep : Char) (s : List Char) : List (List Char) := pySplitAux sep [] s

/-- Python `sep.join(parts)` for a one-character separator. -/
def pyJoin (sep : Char) (parts : List (List Char)) : List Char :=
  List.intercalate [sep] parts

/-- The folder whose existence `create_output_directory` ensures (aag.py
line 149): when `cfg.output_path` contains a `'.'`, the code keeps only the
part before the last `'/'` (`'/'.join(path.split('/')[:-1])`); otherwise the
configured path itself. -/
def output_folder (output_path : List Char) : List Char :=
  if '.' ∈ output_path then pyJoin '/' ((pySplit '/' output_path).dropLast)
  else output_path

/-- `os.path.join(a, b)` (POSIX): `b` if `b` is absolute; plain concatenation
if `a` is empty or ends in `'/'`; otherwise `a + '/' + b`.  This is the path
`write_ascii_to_file` opens with mode `'w'` (truncate/overwrite, aag.py
line 88). -/
def os_path_join (a b : List Char) : List Char :=
  if b.head? = some '/' then b
  else if a = [] ∨ a.getLast? = some '/' then a ++ b
  else a ++ '/' :: b

/-! ## Process-level model of `__main__` (aag.py lines 159–166)

The side-effecting pipeline is modelled by explicit state passing: a record of
which fallible library calls succeed on a given run (`Run.StageOutcomes`) and
a record of the observable outcome of the process (`Run.RunResult`). -/

namespace Run

/-- The possible outcomes of `Image.open` inside `load_image` (aag.py
lines 137–144).  Only `FileNotFoundError` is caught there (logged, then
`sys.exit(1)`); any other decoding error — e.g. `UnidentifiedImageError` for
an existing but undecodable file — propagates out of `__init__` uncaught. -/
inductive LoadOutcome
  | ok
  | fileNotFound
  | undecodable
deriving DecidableEq

/-- Whether each fallible call wrapped in a `try` block succeeds on this run. -/
structure StageOutcomes where
  /-- outcome of `Image.open` (line 140) -/
  load : LoadOutcome
  /-- `self.image.resize(...)` succeeds (line 132) -/
  resize_ok : Bool
  /-- `resized_image.convert('L')` succeeds (line 115) -/
  greyscale_ok : Bool
  /-- the pixel loop of lines 98–107 succeeds -/
  ascii_ok : Bool
  /-- `Path(...).mkdir(...)` succeeds (line 153) -/
  mkdir_ok : Bool
  /-- `open(...)` / `f.write(...)` succeed (lines 88–89) -/
  write_ok : Bool
deriving DecidableEq

/-- The observable outcome of one process run. -/
structure RunResult where
  /-- the process exit status -/
  exitCode : ℕ
  /-- whether the output file was written -/
  fileWritten : Bool
  /-- whether some `log.error(...)` call ran -/
  appLoggedError : Bool
  /-- whether an exception reached the interpreter (traceback on stderr;
  CPython then exits with status 1) -/
  uncaughtException : Bool
deriving DecidableEq

/-- `resize_image` (lines 120–135): the resized image, or `None` after the
caught exception. -/
def resize_image (o : StageOutcomes) : Option Unit :=
  if o.resize_ok then some () else none

/-- `convert_to_greyscale` (lines 112–118): with input `None`,
`None.convert('L')` raises `AttributeError`, which the `except Exception`
catches, returning `None`. -/
def convert_to_greyscale (o : StageOutcomes) : Option Unit → Option Unit
  | none => none
  | some _ => if o.greyscale_ok then some () else none

/-- The `convert_pixel_to_ascii` stage (lines 94–110) viewed as
success/failure: with input `None`, `None.getdata()` raises inside the `try`,
which is caught, returning `None`. -/
def ascii_stage (o : StageOutcomes) : Option Unit → Option Unit
  | none => none
  | some _ => if o.ascii_ok then some () else none

/-- `AsciiArtConverter.convert` (lines 68–81): the three stages in sequence,
then the reflow loop.  The loop header evaluates `len(ascii_str)` and
`greyscale_image.width` outside any `try`; if either value is `None`, the
`TypeError`/`AttributeError` propagates out of `convert` (`Except.error`). -/
def convert (o : StageOutcomes) : Except Unit Unit :=
  match ascii_stage o (convert_to_greyscale o (resize_image o)),
        convert_to_greyscale o (resize_image o) with
  | some _, some _ => Except.ok ()
  | _, _ => Except.error ()

/-- `__main__` (lines 159–166): `create_output_directory()` (any failure
caught and logged, line 155), construct `AsciiArtConverter` (whose `__init__`
calls `load_image`), run `convert`, then `write_ascii_to_file` (any `IOError`
caught and logged, line 91).  `sys.exit(1)` exits with status 1; an uncaught
exception makes CPython print a traceback and exit with status 1; falling off
the end of the script exits with status 0. -/
def runMain (o : StageOutcomes) : RunResult :=
  let mkdirLogged := !o.mkdir_ok
  match o.load with
  | .fileNotFound => ⟨1, false, true, false⟩
  | .undecodable => ⟨1, false, mkdirLogged, true⟩
  | .ok =>
    match convert o with
    | .error _ => ⟨1, false, true, true⟩
    | .ok _ =>
      if o.write_ok then ⟨0, true, mkdirLogged, false⟩
      else ⟨0, false, true, false⟩

end Run

/-! ## Helper lemmas about the ramp lookup -/

theorem rampIndex_le_ten {p : ℕ} (hp : p ≤ 255) : rampIndex p ≤ 10 := by
  unfold rampIndex; omega

theorem rampIndex_lt_length {p : ℕ} (hp : p ≤ 255) :
    rampIndex p < ASCII_CHARS.length := by
  have := rampIndex_le_ten hp
  simp only [ASCII_CHARS, List.length]
  omega

theorem get?_rampIndex_eq_some {p : ℕ} (hp : p ≤ 255) :
    ∃ c, ASCII_CHARS.get? (rampIndex p) = some c := by
  rw [List.get?_eq_get (rampIndex_lt_length hp)]
  exact ⟨_, rfl⟩

/-- On a pixel list with all intensities in `[0, 255]` the mapper succeeds,
produces one character per pixel, and every character is from the ramp. -/
theorem convert_pixel_to_ascii_total {pixels : List ℕ}
    (h : ∀ p ∈ pixels, p ≤ 255) :
    ∃ s, convert_pixel_to_ascii pixels = some s ∧ s.length = pixels.length ∧
      ∀ c ∈ s, c ∈ ASCII_CHARS := by
  induction pixels with
  | nil => exact ⟨[], rfl, rfl, by simp⟩
  | cons p rest ih =>
    obtain ⟨c, hc⟩ := get?_rampIndex_eq_some (h p (List.mem_cons_self p rest))
    obtain ⟨s, hs, hlen, hmem⟩ := ih fun q hq => h q (List.mem_cons_of_mem p hq)
    refine ⟨c :: s, ?_, by simp [hlen], ?_⟩
    · simp only [convert_pixel_to_ascii, hc, hs]
    · intro d hd
      rcases List.mem_cons.mp hd with h1 | h2
      · exact h1 ▸ List.get?_mem hc
      · exact hmem d h2

/-! ## The claims about the ascii mapper -/

/-- C2: on a greyscale image with intensities in `[0, 255]` every character
the mapper produces is from the fixed 11-character ramp, and intensity 0 maps
to `'@'`, 255 to `'.'`, and 125 to `'*'` (ramp index 5). -/
theorem c2_ramp_membership (pixels : List ℕ) (hpix : ∀ p ∈ pixels, p ≤ 255) :
    (∃ s, convert_pixel_to_ascii pixels = some s ∧ ∀ c ∈ s, c ∈ ASCII_CHARS) ∧
    ASCII_CHARS.get? (rampIndex 0) = some '@' ∧
    ASCII_CHARS.get? (rampIndex 255) = some '.' ∧
    rampIndex 125 = 5 ∧ ASCII_CHARS.get? (rampIndex 125) = some '*' := by
  obtain ⟨s, hs, _, hmem⟩ := convert_pixel_to_ascii_total hpix
  exact ⟨⟨s, hs, hmem⟩, by decide, by decide, by decide, by decide⟩

/-- Witness for C2 at the pixel list `[0, 125, 255]`. -/
theorem c2_ramp_membership_witness :
    (∃ s, convert_pixel_to_ascii [0, 125, 255] = some s ∧
        ∀ c ∈ s, c ∈ ASCII_CHARS) ∧
    ASCII_CHARS.get? (rampIndex 0) = some '@' ∧
    ASCII_CHARS.get? (rampIndex 255) = some '.' ∧
    rampIndex 125 = 5 ∧ ASCII_CHARS.get? (rampIndex 125) = some '*' :=
  c2_ramp_membership [0, 125, 255] (by decide)

/-- C4: on a `w × h` greyscale image (so `w * h` pixels row-major from
`getdata()`) with intensities in `[0, 255]`, the flat ascii string has length
exactly `w * h`. -/
theorem c4_flat_length (w h : ℕ) (pixels : List ℕ)
    (hlen : pixels.length = w * h) (hpix : ∀ p ∈ pixels, p ≤ 255) :
    ∃ s, convert_pixel_to_ascii pixels = some s ∧ s.length = w * h := by
  obtain ⟨s, hs, hl, _⟩ := convert_pixel_to_ascii_total hpix
  exact ⟨s, hs, by rw [hl, hlen]⟩

/-- Witness for C4 on a 3 × 1 image. -/
theorem c4_flat_length_witness :
    ∃ s, convert_pixel_to_ascii [0, 125, 255] = some s ∧ s.length = 3 * 1 :=
  c4_flat_length 3 1 [0, 125, 255] (by decide) (by decide)

/-- C6: for every intensity in `[0, 255]` the ramp index `intensity // 25`
lies in `[0, 10]`, so the lookup into the 11-element ramp is in bounds and
the `IndexError` branch is unreachable. -/
theorem c6_index_safe (p : ℕ) (hp : p ≤ 255) :
    rampIndex p ≤ 10 ∧ rampIndex p < ASCII_CHARS.length ∧
      (ASCII_CHARS.get? (rampIndex p)).isSome = true := by
  refine ⟨rampIndex_le_ten hp, rampIndex_lt_length hp, ?_⟩
  rw [List.get?_eq_get (rampIndex_lt_length hp)]
  rfl

/-- Witness for C6 at the extreme intensity 255. -/
theorem c6_index_safe_witness :
    rampIndex 255 ≤ 10 ∧ rampIndex 255 < ASCII_CHARS.length ∧
      (ASCII_CHARS.get? (rampIndex 255)).isSome = true :=
  c6_index_safe 255 (by decide)

/-- C10: the intensity-to-index map is monotone, so a brighter pixel never
maps to a character earlier (darker) in the ramp than a dimmer pixel. -/
theorem c10_ramp_monotone (p q : ℕ) (hpq : p ≤ q) (hq : q ≤ 255) :
    rampIndex p ≤ rampIndex q :=
  Nat.div_le_div_right hpq

/-- Witness for C10 at intensities 24 and 250. -/
theorem c10_ramp_monotone_witness :
    24 ≤ 250 ∧ 250 ≤ 255 ∧ rampIndex 24 ≤ rampIndex 250 :=
  ⟨by decide, by decide, c10_ramp_monotone 24 250 (by decide) (by decide)⟩

/-! ## The claims about the configured target width -/

/-- C3 counterexample: the `target_width` parameter of
`AsciiArtConverter.__init__` defaults to 100, not 120. -/
theorem c3_default_width_counterexample :
    init_default_target_width = 100 ∧ ¬ init_default_target_width = 120 := by
  decide

/-- C3 (amended): the constructor default is 100; `__main__` passes 120
explicitly, and 120 is the fixed column count the conversion uses (the first
resize dimension). -/
theorem c3_target_width_constants :
    init_default_target_width = 100 ∧ main_target_width = 120 ∧
    ∀ W H : ℕ, (resize_image_dims main_target_width W H).1 = 120 :=
  ⟨rfl, rfl, fun _ _ => rfl⟩

/-! ## The layout round-trip claim -/

/-- Stripping the newlines that `reflowChunks` inserted recovers any
newline-free input string (strong induction on the string length). -/
theorem stripNewlines_reflowChunks (w : ℕ) :
    ∀ (n : ℕ) (s : List Char), s.length ≤ n → '\n' ∉ s →
      stripNewlines (reflowChunks s w) = s := by
  intro n
  induction n with
  | zero =>
    intro s hlen _
    have hs : s = [] := List.length_eq_zero.mp (Nat.le_zero.mp hlen)
    subst hs
    rw [reflowChunks]
    rfl
  | succ n ih =>
    intro s hlen hnl
    match s with
    | [] =>
      rw [reflowChunks]
      rfl
    | c :: rest =>
      rw [reflowChunks]
      have hc : c ≠ '\n' := fun h => hnl (h ▸ List.mem_cons_self c rest)
      have hrest : '\n' ∉ rest := fun h => hnl (List.mem_cons_of_mem c h)
      have htake : List.filter (fun c => c != '\n') (rest.take w) = rest.take w :=
        List.filter_eq_self.mpr fun a ha => by
          simp only [bne_iff_ne, ne_eq]
          exact fun h => hrest (h ▸ List.take_subset w rest ha)
      have hdrop : stripNewlines (reflowChunks (rest.drop w) w) = rest.drop w := by
        apply ih
        · simp only [List.length_drop, List.length_cons] at hlen ⊢
          omega
        · exact fun h => hrest (List.drop_subset w rest h)
      show stripNewlines (c :: (rest.take w ++ '\n' :: reflowChunks (rest.drop w) w)) =
        c :: rest
      unfold stripNewlines at hdrop ⊢
      simp only [List.filter_cons, List.filter_append, bne_iff_ne, ne_eq, hc,
        not_false_eq_true, decide_True, if_true, decide_not]
      simp only [not_true, if_false, htake, hdrop, List.take_append_drop]

/-- C5 counterexample: the round-trip fails on a string that itself contains a
newline — for `s = "\n"` and width 1, reflowing gives `"\n\n"` and stripping
all newlines leaves `""`, not `s`. -/
theorem c5_roundtrip_counterexample :
    stripNewlines (reflow ['\n'] 1) = [] ∧ ['\n'] ≠ ([] : List Char) :=
  ⟨by simp [reflow, reflowChunks, stripNewlines], by decide⟩

/-- C5 (amended): for every *newline-free* flat string `s` and width `w ≥ 1`,
reflowing `s` into width-`w` chunks each followed by a newline and then
removing all newline characters yields back `s`. -/
theorem c5_reflow_roundtrip (s : List Char) (w : ℕ) (hw : 1 ≤ w)
    (hs : '\n' ∉ s) : stripNewlines (reflow s w) = s := by
  match w, hw with
  | w' + 1, _ => exact stripNewlines_reflowChunks w' s.length s le_rfl hs

/-- Witness for the amended C5 at `s = "abc"`, `w = 2`. -/
theorem c5_reflow_roundtrip_witness :
    stripNewlines (reflow ['a', 'b', 'c'] 2) = ['a', 'b', 'c'] :=
  c5_reflow_roundtrip ['a', 'b', 'c'] 2 (by decide) (by decide)

/-! ## The resize-dimension claims -/

/-- On nonnegative rationals `pyInt` agrees with the floor. -/
theorem pyInt_eq_floor {q : ℚ} (hq : 0 ≤ q) : pyInt q = ⌊q⌋ := by
  unfold pyInt
  rw [Int.tdiv_eq_ediv (Rat.num_nonneg.mpr hq) (Int.natCast_nonneg q.den)]
  exact Rat.floor_def.symm

/-- Evaluation lemma: `pyInt q = a.tdiv b` once `q`'s reduced numerator and
denominator are known. -/
theorem pyInt_concrete {q : ℚ} {r : ℤ} (a : ℤ) (b : ℕ) (hnum : q.num = a)
    (hden : q.den = b) (h : a.tdiv (b : ℤ) = r) : pyInt q = r := by
  unfold pyInt
  rw [hnum, hden, h]

/-- C1 counterexample: at target width 120 on an 80 × 9 image the
intermediate height is `120·9/80 = 13.5`; the code computes
`int(13.5 - int(13.5·0.3)) = int(13.5 - 4) = 9`, while the claimed formula
`int(13.5) - int(int(13.5)·0.3) = 13 - int(3.9) = 10` — so truncating the
intermediate height *before* the 30 % reduction does not match the code.
(At this input IEEE-754 double evaluation agrees with exact arithmetic:
`13.5` is exact and `13.5*0.3`, `13*0.3` are well clear of integers.) -/
theorem c1_height_counterexample :
    resize_image_dims 120 80 9 = (120, 9) ∧
    resizedHeightClaimFormula 120 80 9 = 10 ∧ (9 : ℤ) ≠ 10 := by
  have hq : ((120 : ℕ) : ℚ) * ((9 : ℕ) : ℚ) / ((80 : ℕ) : ℚ) = 27 / 2 := by norm_num
  unfold resize_image_dims resizedHeightClaimFormula
  rw [hq]
  have h4 : pyInt ((27 : ℚ) / 2 * (3 / 10)) = 4 :=
    pyInt_concrete 81 20 (by norm_num) (by norm_num) (by decide)
  have h13 : pyInt ((27 : ℚ) / 2) = 13 :=
    pyInt_concrete 27 2 (by norm_num) (by norm_num) (by decide)
  rw [h4, h13]
  have h9 : pyInt ((27 : ℚ) / 2 - ((4 : ℤ) : ℚ)) = 9 :=
    pyInt_concrete 19 2 (by norm_num) (by norm_num) (by decide)
  have h3 : pyInt (((13 : ℤ) : ℚ) * (3 / 10)) = 3 :=
    pyInt_concrete 39 10 (by norm_num) (by norm_num) (by decide)
  rw [h9, h3]
  exact ⟨rfl, by decide, by decide⟩

/-- C1 (amended): for every image with `W ≥ 1`, `H ≥ 1` and target width
`tw`, the resized dimensions are width exactly `tw` and height
`int(tw·H/W) - int((tw·H/W)·0.3)`: the 30 % reduction is computed from the
*untruncated* intermediate height, and the final truncation distributes over
the subtraction because the subtrahend is already an integer. -/
theorem c1_resize_dims (tw W H : ℕ) (hW : 1 ≤ W) (hH : 1 ≤ H) :
    resize_image_dims tw W H =
      (tw, pyInt ((tw : ℚ) * (H : ℚ) / (W : ℚ)) -
        pyInt ((tw : ℚ) * (H : ℚ) / (W : ℚ) * (3 / 10 : ℚ))) := by
  unfold resize_image_dims
  have hth : (0 : ℚ) ≤ (tw : ℚ) * (H : ℚ) / (W : ℚ) := by positivity
  set th : ℚ := (tw : ℚ) * (H : ℚ) / (W : ℚ) with hthdef
  have h3 : (0 : ℚ) ≤ th * (3 / 10) := by positivity
  have hk := pyInt_eq_floor h3
  have hsub : (0 : ℚ) ≤ th - (pyInt (th * (3 / 10)) : ℚ) := by
    rw [hk]
    have h1 : ((⌊th * (3 / 10)⌋ : ℤ) : ℚ) ≤ th * (3 / 10) := Int.floor_le _
    have h2 : th * (3 / 10) ≤ th := by nlinarith
    linarith
  rw [pyInt_eq_floor hsub, hk, pyInt_eq_floor hth, Int.floor_sub_int]

/-- Witness for the amended C1 at `tw = 120`, `W = 200`, `H = 100` (the
spec's own scenario: the resized image is 120 × 42). -/
theorem c1_resize_dims_witness :
    resize_image_dims 120 200 100 =
      (120, pyInt ((120 : ℚ) * (100 : ℕ) / (200 : ℕ)) -
        pyInt ((120 : ℚ) * (100 : ℕ) / (200 : ℕ) * (3 / 10 : ℚ))) :=
  c1_resize_dims 120 200 100 (by decide) (by decide)

/-! ## The process-level claims -/

/-- C7: whenever the input image fails to open — missing file (caught,
logged, `sys.exit(1)`) or undecodable file (uncaught `UnidentifiedImageError`,
traceback, interpreter exit 1) — the process exits with status 1, writes no
output file, and the failure is reported (by the application log or the
interpreter traceback); when the image opens and every stage succeeds the
exit status is 0. -/
theorem c7_exit_codes (o : Run.StageOutcomes) :
    (o.load ≠ Run.LoadOutcome.ok →
      (Run.runMain o).exitCode = 1 ∧ (Run.runMain o).fileWritten = false ∧
      ((Run.runMain o).appLoggedError = true ∨
        (Run.runMain o).uncaughtException = true)) ∧
    (o.load = Run.LoadOutcome.ok → o.resize_ok = true → o.greyscale_ok = true →
      o.ascii_ok = true → o.mkdir_ok = true → o.write_ok = true →
      (Run.runMain o).exitCode = 0 ∧ (Run.runMain o).fileWritten = true) := by
  obtain ⟨l, r, g, a, m, w⟩ := o
  cases l <;> cases r <;> cases g <;> cases a <;> cases m <;> cases w <;> decide

/-- Witness for C7: a file-not-found run exits 1 with no file written and the
failure reported; an all-success run exits 0. -/
theorem c7_exit_codes_witness :
    (Run.runMain ⟨.fileNotFound, true, true, true, true, true⟩).exitCode = 1 ∧
    (Run.runMain ⟨.fileNotFound, true, true, true, true, true⟩).fileWritten = false ∧
    ((Run.runMain ⟨.fileNotFound, true, true, true, true, true⟩).appLoggedError = true ∨
      (Run.runMain ⟨.fileNotFound, true, true, true, true, true⟩).uncaughtException = true) ∧
    (Run.runMain ⟨.ok, true, true, true, true, true⟩).exitCode = 0 :=
  ⟨((c7_exit_codes ⟨.fileNotFound, true, true, true, true, true⟩).1 (by decide)).1,
   ((c7_exit_codes ⟨.fileNotFound, true, true, true, true, true⟩).1 (by decide)).2.1,
   ((c7_exit_codes ⟨.fileNotFound, true, true, true, true, true⟩).1 (by decide)).2.2,
   ((c7_exit_codes ⟨.ok, true, true, true, true, true⟩).2 rfl rfl rfl rfl rfl rfl).1⟩

/-- C9 counterexample: on a run where the image opens but the resize call
fails, the failure is caught and logged and `resize_image` returns `None` —
but the reflow loop in `convert` then evaluates `len(None)`, the resulting
`TypeError` is uncaught, and the process exits with status 1, not 0. -/
theorem c9_exit_counterexample :
    (Run.runMain ⟨.ok, false, true, true, true, true⟩).exitCode = 1 ∧
    ¬ (Run.runMain ⟨.ok, false, true, true, true, true⟩).exitCode = 0 := by
  decide

/-- C9 (amended): every non-fatal stage failure is caught and logged and the
failing function returns `None`, and the immediately following stage is still
invoked (receiving `None`); but after a resize, greyscale, or pixel-mapping
failure the reflow loop raises an uncaught `TypeError` and the process exits
with status 1 and writes nothing.  Only directory-creation and file-write
failures leave the exit status 0. -/
theorem c9_stage_failures (o : Run.StageOutcomes)
    (hload : o.load = Run.LoadOutcome.ok) :
    (o.resize_ok = false → Run.resize_image o = none ∧
      Run.convert_to_greyscale o (Run.resize_image o) = none ∧
      Run.ascii_stage o (Run.convert_to_greyscale o (Run.resize_image o)) = none) ∧
    ((o.resize_ok = false ∨ o.greyscale_ok = false ∨ o.ascii_ok = false) →
      (Run.runMain o).appLoggedError = true ∧
      (Run.runMain o).uncaughtException = true ∧
      (Run.runMain o).exitCode = 1 ∧ (Run.runMain o).fileWritten = false) ∧
    (o.resize_ok = true → o.greyscale_ok = true → o.ascii_ok = true →
      (Run.runMain o).exitCode = 0 ∧ (Run.runMain o).fileWritten = o.write_ok ∧
      ((o.mkdir_ok = false ∨ o.write_ok = false) →
        (Run.runMain o).appLoggedError = true)) := by
  obtain ⟨l, r, g, a, m, w⟩ := o
  cases l <;> cases r <;> cases g <;> cases a <;> cases m <;> cases w <;>
    first | decide | (exfalso; exact Run.LoadOutcome.noConfusion hload)

/-- Witness for the amended C9: a resize-failure run is logged, crashes and
exits 1; a write-failure run is logged and still exits 0. -/
theorem c9_stage_failures_witness :
    ((Run.runMain ⟨.ok, false, true, true, true, true⟩).appLoggedError = true ∧
     (Run.runMain ⟨.ok, false, true, true, true, true⟩).uncaughtException = true ∧
     (Run.runMain ⟨.ok, false, true, true, true, true⟩).exitCode = 1 ∧
     (Run.runMain ⟨.ok, false, true, true, true, true⟩).fileWritten = false) ∧
    ((Run.runMain ⟨.ok, true, true, true, true, false⟩).exitCode = 0 ∧
     (Run.runMain ⟨.ok, true, true, true, true, false⟩).appLoggedError = true) :=
  ⟨(c9_stage_failures ⟨.ok, false, true, true, true, true⟩ rfl).2.1 (by decide),
   ⟨((c9_stage_failures ⟨.ok, true, true, true, true, false⟩ rfl).2.2 rfl rfl rfl).1,
    ((c9_stage_failures ⟨.ok, true, true, true, true, false⟩ rfl).2.2 rfl rfl rfl).2.2
      (by decide)⟩⟩

/-! ## The output-directory claim -/

/-- C8 counterexample: for the configured output directory `"out.dir"` —
which contains a `'.'` — `create_output_directory` ensures only
`'/'.join("out.dir".split('/')[:-1]) = ""`, not the directory itself, so the
output directory is *not* created and the subsequent write fails. -/
theorem c8_dot_counterexample :
    output_folder ['o', 'u', 't', '.', 'd', 'i', 'r'] = [] ∧
    ['o', 'u', 't', '.', 'd', 'i', 'r'] ≠ ([] : List Char) := by
  constructor
  · rfl
  · decide

/-- C8 (amended): for every configured output directory path that contains no
`'.'` character, the writer ensures exactly that directory exists before
writing, and (for a relative non-empty directory and a file name that is not
absolute) writes to `<output_directory>/<file_name>`, overwriting any
existing file; when the path contains a `'.'`, only the part before its last
`'/'` is ensured. -/
theorem c8_output_dir (p f : List Char) (hp : '.' ∉ p) :
    output_folder p = p ∧
    (f.head? ≠ some '/' → p ≠ [] → p.getLast? ≠ some '/' →
      os_path_join p f = p ++ '/' :: f) := by
  constructor
  · unfold output_folder
    rw [if_neg hp]
  · intro hf hpnil hlast
    unfold os_path_join
    rw [if_neg hf, if_neg (not_or.mpr ⟨hpnil, hlast⟩)]

/-- Witness for the amended C8 at the default configuration
`output/ascii_image.txt`. -/
theorem c8_output_dir_witness :
    output_folder ['o', 'u', 't', 'p', 'u', 't'] = ['o', 'u', 't', 'p', 'u', 't'] ∧
    (List.head? ['a', '.', 't', 'x', 't'] ≠ some '/' →
      ['o', 'u', 't', 'p', 'u', 't'] ≠ [] →
      List.getLast? ['o', 'u', 't', 'p', 'u', 't'] ≠ some '/' →
      os_path_join ['o', 'u', 't', 'p', 'u', 't'] ['a', '.', 't', 'x', 't'] =
        ['o', 'u', 't', 'p', 'u', 't'] ++ '/' :: ['a', '.', 't', 'x', 't']) :=
  c8_output_dir ['o', 'u', 't', 'p', 'u', 't'] ['a', '.', 't', 'x', 't'] (by decide)
